import Mathlib

/-!
Verification of the YSB MT5 worker login endpoint (src/worker/main.py).

The endpoint `POST /mt5/login` is a single linear handler: it checks a
static API key from the `x-api-key` header, imports the MetaTrader5
binding, calls `mt5.initialize()`, then inside a `try/finally` block
converts the login field to an integer, calls `mt5.login(...)`, queries
`mt5.account_info()`, and in the `finally` clause calls `mt5.shutdown()`.

The embedding below models the handler as a pure function of the
configured secret, the request body, the header value, and an
environment describing what the external MetaTrader5 binding would do
on this request.  The function returns the handler outcome together
with the ordered list of calls made against the binding, so that
lifecycle claims (when `shutdown()` runs, how often) can be stated.
Raised Python exceptions that escape the handler are modelled by the
`serverError` outcome.
-/

namespace Mt5Worker

/-- A value stored in an account-info record; integers and strings
cover the observable fields used by the specification. -/
inductive Val where
  | i (n : Int)
  | s (str : String)
deriving DecidableEq

/-- The request body of `POST /mt5/login` (pydantic model `LoginReq`):
three required string fields. -/
structure LoginReq where
  server : String
  login : String
  password : String
deriving DecidableEq

/-- The calls the handler makes against the MetaTrader5 binding, in the
order it makes them.  `importMt5` records the `import MetaTrader5`
attempt, `initTerminal` records `mt5.initialize()`, `login` records
`mt5.login(...)`, `accountInfo` records `mt5.account_info()` and
`shutdown` records `mt5.shutdown()`. -/
inductive Call where
  | importMt5
  | initTerminal
  | login
  | accountInfo
  | shutdown
deriving DecidableEq

/-- An unhandled Python exception escaping the handler (surfaced by the
framework as a server error): the `ValueError` from `int(req.login)`,
or an exception raised by `mt5.account_info()`. -/
inductive PyExc where
  | valueError
  | accountInfoExc (msg : String)
deriving DecidableEq

/-- A response-body dictionary built by the handler.  The key `"ok"` is
present in every body the handler builds; `"message"` and
`"account_info"` are present exactly when the corresponding optional
field is `some`. -/
structure Body where
  ok : Bool
  message : Option String
  account_info : Option (List (String × Val))
deriving DecidableEq

/-- The observable outcome of one handler invocation: an HTTP-level
rejection raised via `HTTPException` (status code and detail string), a
normal `200` response carrying a body, or an unhandled exception that
propagates past the handler as a server error. -/
inductive HandlerResult where
  | reject (status : Nat) (detail : String)
  | response (body : Body)
  | serverError (e : PyExc)
deriving DecidableEq

instance exceptDecEq {ε α : Type} [DecidableEq ε] [DecidableEq α] :
    DecidableEq (Except ε α) := fun x y =>
  match x, y with
  | .ok a, .ok b =>
      if h : a = b then .isTrue (by rw [h]) else .isFalse (by simp [h])
  | .ok _, .error _ => .isFalse (by simp)
  | .error _, .ok _ => .isFalse (by simp)
  | .error a, .error b =>
      if h : a = b then .isTrue (by rw [h]) else .isFalse (by simp [h])

/-- The external MetaTrader5 world for one request: whether the import
succeeds (with the stringified cause on failure), what
`mt5.initialize()` returns, what `mt5.login(...)` returns, and what
`mt5.account_info()` does (raise, return no record, or return a
record). -/
structure Mt5Env where
  importResult : Except String Unit
  initOk : Bool
  loginOk : Bool
  accountInfo : Except String (Option (List (String × Val)))
deriving DecidableEq

/-- The numeric value of a nonempty all-digit character list, `none`
otherwise. -/
def digitsVal (cs : List Char) : Option Nat :=
  if cs.isEmpty then none
  else if cs.all (fun c => c.isDigit) then
    some (cs.foldl (fun acc c => 10 * acc + (c.toNat - 48)) 0)
  else none

/-- Models Python `int(s)` on a string: an optional sign followed by
decimal digits yields a value; any other string raises `ValueError`,
modelled by `none`.  (Python additionally strips surrounding whitespace
and allows underscores between digits; no claim exercises those
forms.) -/
def pyStrToInt (s : String) : Option Int :=
  match s.toList with
  | '-' :: rest => (digitsVal rest).map (fun n => -(n : Int))
  | '+' :: rest => (digitsVal rest).map (fun n => (n : Int))
  | l => (digitsVal l).map (fun n => (n : Int))

/-- The `try` block of the handler: `int(req.login)` conversion, the
`mt5.login(...)` call, and the `mt5.account_info()` query, returning
the outcome and the binding calls the block makes.  A raised exception
is modelled by a `serverError` outcome. -/
def tryBlock (req : LoginReq) (env : Mt5Env) : HandlerResult × List Call :=
  match pyStrToInt req.login with
  | none => (.serverError .valueError, [])
  | some _ =>
    if env.loginOk = false then
      (.response ⟨false, some "mt5.login failed", none⟩, [.login])
    else
      match env.accountInfo with
      | .error msg => (.serverError (.accountInfoExc msg), [.login, .accountInfo])
      | .ok info =>
        let account_info := match info with
          | some record => record
          | none => ([] : List (String × Val))
        (.response ⟨true, none, some account_info⟩, [.login, .accountInfo])

/-- The handler `mt5_login` of src/worker/main.py as a function of the
configured secret `apiKey`, the request body, the already-defaulted
`x-api-key` header value, and the external binding behaviour.  Returns
the outcome together with the ordered list of binding calls.  The
`finally` clause appends the `shutdown` call after the `try` block on
every path through it, whether the block returned or raised. -/
def mt5_login (apiKey : String) (req : LoginReq) (x_api_key : String)
    (env : Mt5Env) : HandlerResult × List Call :=
  if x_api_key ≠ apiKey then
    (.reject 401 "invalid api key", [])
  else
    match env.importResult with
    | .error e =>
        (.response ⟨false, some ("MetaTrader5 not available: " ++ e), none⟩,
         [.importMt5])
    | .ok _ =>
        if env.initOk = false then
          (.response ⟨false, some "mt5.initialize failed", none⟩,
           [.importMt5, .initTerminal])
        else
          let r := tryBlock req env
          (r.1, [Call.importMt5, Call.initTerminal] ++ r.2 ++ [Call.shutdown])

/-- Models `os.getenv(name, default)` over an association list of
environment variables. -/
def getenv (osenv : List (String × String)) (name dflt : String) : String :=
  match osenv.lookup name with
  | some v => v
  | none => dflt

/-- The module-level constant
`API_KEY = os.getenv("MT5_WORKER_API_KEY", "change-me")`. -/
def API_KEY (osenv : List (String × String)) : String :=
  getenv osenv "MT5_WORKER_API_KEY" "change-me"

/-- The full endpoint as served: FastAPI fills the `x_api_key`
parameter from the header with `Header(default="")`, so a missing
header becomes the empty string, and the secret comes from the process
environment at startup. -/
def handleRequest (osenv : List (String × String)) (req : LoginReq)
    (header : Option String) (env : Mt5Env) : HandlerResult × List Call :=
  mt5_login (API_KEY osenv) req (header.getD "") env

/-- Whether an outcome is an HTTP-level rejection. -/
def HandlerResult.isReject : HandlerResult → Bool
  | .reject _ _ => true
  | _ => false

/-- Concrete request of the §8.7 scenario. -/
def demoReq : LoginReq := ⟨"Demo", "12345", "pw"⟩

/-- Concrete request whose login field is non-numeric. -/
def badLoginReq : LoginReq := ⟨"Demo", "abc", "pw"⟩

/-- Environment of the §8.7 scenario: binding present, initialization
and login succeed, account info returns the balance/currency record. -/
def envOkSome : Mt5Env :=
  ⟨.ok (), true, true, .ok (some [("balance", .i 1000), ("currency", .s "USD")])⟩

/-- Environment where login succeeds but account info returns no
record. -/
def envOkNone : Mt5Env := ⟨.ok (), true, true, .ok none⟩

/-- Environment where `mt5.initialize()` reports failure. -/
def envInitFail : Mt5Env := ⟨.ok (), false, true, .ok none⟩

/-- Environment where `mt5.login(...)` reports failure. -/
def envLoginFail : Mt5Env := ⟨.ok (), true, false, .ok none⟩

/-- Environment where the MetaTrader5 import fails. -/
def envImportFail : Mt5Env := ⟨.error "No module named MetaTrader5", true, true, .ok none⟩

/-- Environment where `mt5.account_info()` raises. -/
def envAccRaise : Mt5Env := ⟨.ok (), true, true, .error "terminal gone"⟩

/-- C1: for every request that passes the API-key check (header equal to
the secret), whenever the binding imports and `initialize()` returns
true, `shutdown()` is recorded exactly once and is the last call made
before the handler returns — covering the success path, the
login-failure path, the conversion-error path and the account-info
exception path — and `shutdown()` is never recorded on the
initialize-failure path or on the binding-unavailable path. -/
theorem C1_shutdown_lifecycle (secret : String) (req : LoginReq) (env : Mt5Env) :
    (env.importResult = .ok () → env.initOk = true →
      ((mt5_login secret req secret env).2.count Call.shutdown = 1 ∧
       (mt5_login secret req secret env).2.getLast? = some Call.shutdown)) ∧
    (env.initOk = false → Call.shutdown ∉ (mt5_login secret req secret env).2) ∧
    (∀ e, env.importResult = .error e →
      Call.shutdown ∉ (mt5_login secret req secret env).2) := by
  rcases env with ⟨imp, init, lg, acc⟩
  rcases imp with e | u
  · simp [mt5_login]
  · cases u
    cases init with
    | false => simp [mt5_login]
    | true =>
      rcases hp : pyStrToInt req.login with _ | n <;>
        cases lg <;> rcases acc with msg | info <;>
        simp [mt5_login, tryBlock, hp]

/-- C1 witness: at a concrete secret, request and environments, the
success path records one final shutdown, and the initialize-failure and
import-failure paths record none. -/
theorem C1_shutdown_lifecycle_witness :
    (mt5_login "k" demoReq "k" envOkSome).2.count Call.shutdown = 1 ∧
    (mt5_login "k" demoReq "k" envOkSome).2.getLast? = some Call.shutdown ∧
    Call.shutdown ∉ (mt5_login "k" demoReq "k" envInitFail).2 ∧
    Call.shutdown ∉ (mt5_login "k" demoReq "k" envImportFail).2 :=
  ⟨((C1_shutdown_lifecycle "k" demoReq envOkSome).1 rfl rfl).1,
   ((C1_shutdown_lifecycle "k" demoReq envOkSome).1 rfl rfl).2,
   (C1_shutdown_lifecycle "k" demoReq envInitFail).2.1 rfl,
   (C1_shutdown_lifecycle "k" demoReq envImportFail).2.2
     "No module named MetaTrader5" rfl⟩

/-- C2: for every request whose header value differs from the secret,
the handler raises the 401 rejection with detail "invalid api key",
produces no response body, and makes no binding call at all (no import,
no initialization, no login). -/
theorem C2_invalid_key_rejects (secret h : String) (req : LoginReq)
    (env : Mt5Env) (hne : h ≠ secret) :
    mt5_login secret req h env = (.reject 401 "invalid api key", []) := by
  simp [mt5_login, hne]

/-- C2 witness: the default secret with an empty header value (the
missing-header default) is rejected with no calls made. -/
theorem C2_invalid_key_rejects_witness :
    mt5_login "change-me" demoReq "" envOkSome =
      (.reject 401 "invalid api key", []) :=
  C2_invalid_key_rejects "change-me" "" demoReq envOkSome (by decide)

/-- C3 counterexample: with a correct key, an available binding and a
failing initialization, the handler does not return the body
`{ok: false, message: "initialize failed"}` — the literal message in
the code is "mt5.initialize failed". -/
theorem C3_counterexample :
    envInitFail.importResult = .ok () ∧ envInitFail.initOk = false ∧
    (mt5_login "k" demoReq "k" envInitFail).1 ≠
      .response ⟨false, some "initialize failed", none⟩ := by
  decide

/-- C3 amended: with a correct key and an available binding, when
`initialize()` returns false the handler returns exactly
`{ok: false, message: "mt5.initialize failed"}` and neither `login()`
nor `account_info()` is ever invoked. -/
theorem C3_init_failed_message (secret : String) (req : LoginReq) (env : Mt5Env)
    (himp : env.importResult = .ok ()) (hinit : env.initOk = false) :
    (mt5_login secret req secret env).1 =
      .response ⟨false, some "mt5.initialize failed", none⟩ ∧
    Call.login ∉ (mt5_login secret req secret env).2 ∧
    Call.accountInfo ∉ (mt5_login secret req secret env).2 := by
  simp [mt5_login, himp, hinit]

/-- C3 amended witness: the initialize-failure path at a concrete
input. -/
theorem C3_init_failed_message_witness :
    (mt5_login "k" demoReq "k" envInitFail).1 =
      .response ⟨false, some "mt5.initialize failed", none⟩ ∧
    Call.login ∉ (mt5_login "k" demoReq "k" envInitFail).2 ∧
    Call.accountInfo ∉ (mt5_login "k" demoReq "k" envInitFail).2 :=
  C3_init_failed_message "k" demoReq envInitFail rfl rfl

/-- C4 counterexample: with a correct key, a successful initialization
and a failing login, the handler does not return the body
`{ok: false, message: "login failed"}` — the literal message in the
code is "mt5.login failed". -/
theorem C4_counterexample :
    envLoginFail.importResult = .ok () ∧ envLoginFail.initOk = true ∧
    envLoginFail.loginOk = false ∧
    (mt5_login "k" demoReq "k" envLoginFail).1 ≠
      .response ⟨false, some "login failed", none⟩ := by
  decide

/-- C4 amended: with a correct key, an available binding, a successful
initialization and a login field that converts to an integer, when
`login()` returns false the handler returns exactly
`{ok: false, message: "mt5.login failed"}` and `shutdown()` is recorded
exactly once. -/
theorem C4_login_failed_message (secret : String) (req : LoginReq) (env : Mt5Env)
    (himp : env.importResult = .ok ()) (hinit : env.initOk = true)
    (hconv : (pyStrToInt req.login).isSome = true)
    (hlogin : env.loginOk = false) :
    (mt5_login secret req secret env).1 =
      .response ⟨false, some "mt5.login failed", none⟩ ∧
    (mt5_login secret req secret env).2.count Call.shutdown = 1 := by
  rcases hp : pyStrToInt req.login with _ | n
  · rw [hp] at hconv
    simp at hconv
  · simp [mt5_login, tryBlock, himp, hinit, hlogin, hp]

/-- C4 amended witness: the login-failure path at a concrete input. -/
theorem C4_login_failed_message_witness :
    (mt5_login "k" demoReq "k" envLoginFail).1 =
      .response ⟨false, some "mt5.login failed", none⟩ ∧
    (mt5_login "k" demoReq "k" envLoginFail).2.count Call.shutdown = 1 :=
  C4_login_failed_message "k" demoReq envLoginFail rfl rfl (by decide) rfl

/-- C5: with a correct key, an available binding, a successful
initialization, a convertible login field and a successful login, when
`account_info()` returns no record the handler returns
`{ok: true, account_info: {}}` — the empty mapping substituted for the
missing record. -/
theorem C5_missing_record_empty_mapping (secret : String) (req : LoginReq)
    (env : Mt5Env)
    (himp : env.importResult = .ok ()) (hinit : env.initOk = true)
    (hconv : (pyStrToInt req.login).isSome = true)
    (hlogin : env.loginOk = true) (hacc : env.accountInfo = .ok none) :
    (mt5_login secret req secret env).1 =
      .response ⟨true, none, some []⟩ := by
  rcases hp : pyStrToInt req.login with _ | n
  · rw [hp] at hconv
    simp at hconv
  · simp [mt5_login, tryBlock, himp, hinit, hlogin, hacc, hp]

/-- C5 witness: the missing-record path at a concrete input. -/
theorem C5_missing_record_empty_mapping_witness :
    (mt5_login "k" demoReq "k" envOkNone).1 =
      .response ⟨true, none, some []⟩ :=
  C5_missing_record_empty_mapping "k" demoReq envOkNone rfl rfl (by decide)
    rfl rfl

/-- C6: with a correct key, an available binding, a successful
initialization, a convertible login field and a successful login, when
`account_info()` returns a record the response carries exactly that
record as its `account_info` mapping (no additions or omissions) and
`shutdown()` is recorded exactly once. -/
theorem C6_record_exact (secret : String) (req : LoginReq) (env : Mt5Env)
    (record : List (String × Val))
    (himp : env.importResult = .ok ()) (hinit : env.initOk = true)
    (hconv : (pyStrToInt req.login).isSome = true)
    (hlogin : env.loginOk = true)
    (hacc : env.accountInfo = .ok (some record)) :
    (mt5_login secret req secret env).1 =
      .response ⟨true, none, some record⟩ ∧
    (mt5_login secret req secret env).2.count Call.shutdown = 1 := by
  rcases hp : pyStrToInt req.login with _ | n
  · rw [hp] at hconv
    simp at hconv
  · simp [mt5_login, tryBlock, himp, hinit, hlogin, hacc, hp]

/-- C6 witness: the §8.7 scenario — request
`{server: "Demo", login: "12345", password: "pw"}` with
`account_info() = {balance: 1000, currency: "USD"}` returns
`{ok: true, account_info: {balance: 1000, currency: "USD"}}` and one
shutdown call. -/
theorem C6_record_exact_witness :
    (mt5_login "k" demoReq "k" envOkSome).1 =
      .response ⟨true, none,
        some [("balance", Val.i 1000), ("currency", Val.s "USD")]⟩ ∧
    (mt5_login "k" demoReq "k" envOkSome).2.count Call.shutdown = 1 :=
  C6_record_exact "k" demoReq envOkSome
    [("balance", Val.i 1000), ("currency", Val.s "USD")]
    rfl rfl (by decide) rfl rfl

/-- C7 counterexample: with a correct key and a non-numeric login
field, the conversion error is raised after `initialize()` was already
called and inside the release guard: the outcome is an unhandled server
error, yet `shutdown()` does occur — contradicting the claim that the
conversion step precedes initialization and escapes the guard without
triggering the release. -/
theorem C7_counterexample :
    pyStrToInt badLoginReq.login = none ∧
    (mt5_login "k" badLoginReq "k" envOkSome).1 =
      .serverError .valueError ∧
    Call.initTerminal ∈ (mt5_login "k" badLoginReq "k" envOkSome).2 ∧
    Call.shutdown ∈ (mt5_login "k" badLoginReq "k" envOkSome).2 := by
  decide

/-- C7 amended: when the login field is non-numeric, the conversion
error occurs after initialization and inside the release guard: the
exception propagates as an unhandled server error, but the call
sequence is exactly import, initialization, then the shutdown release —
so `shutdown()` is still invoked exactly once. -/
theorem C7_conversion_inside_guard (secret : String) (req : LoginReq)
    (env : Mt5Env)
    (himp : env.importResult = .ok ()) (hinit : env.initOk = true)
    (hconv : pyStrToInt req.login = none) :
    (mt5_login secret req secret env).1 = .serverError .valueError ∧
    (mt5_login secret req secret env).2 =
      [Call.importMt5, Call.initTerminal, Call.shutdown] := by
  simp [mt5_login, tryBlock, himp, hinit, hconv]

/-- C7 amended witness: the non-numeric-login path at a concrete
input. -/
theorem C7_conversion_inside_guard_witness :
    (mt5_login "k" badLoginReq "k" envOkSome).1 =
      .serverError .valueError ∧
    (mt5_login "k" badLoginReq "k" envOkSome).2 =
      [Call.importMt5, Call.initTerminal, Call.shutdown] :=
  C7_conversion_inside_guard "k" badLoginReq envOkSome rfl rfl (by decide)

/-- C8: with a correct key, when the MetaTrader5 import fails with
cause `e` the handler returns a normal response (not a rejection) whose
body is `{ok: false, message: "MetaTrader5 not available: " ++ e}`. -/
theorem C8_binding_unavailable (secret : String) (req : LoginReq)
    (env : Mt5Env) (e : String) (himp : env.importResult = .error e) :
    (mt5_login secret req secret env).1 =
      .response ⟨false, some ("MetaTrader5 not available: " ++ e), none⟩ := by
  simp [mt5_login, himp]

/-- C8 witness: the import-failure path at a concrete cause string. -/
theorem C8_binding_unavailable_witness :
    (mt5_login "k" demoReq "k" envImportFail).1 =
      .response ⟨false,
        some ("MetaTrader5 not available: " ++ "No module named MetaTrader5"),
        none⟩ :=
  C8_binding_unavailable "k" demoReq envImportFail
    "No module named MetaTrader5" rfl

/-- C9: with MT5_WORKER_API_KEY set to the empty string, the configured
secret is the empty string, and a request with no x-api-key header (the
header defaults to the empty string) passes the authentication check:
the handler never produces a rejection, for any request body and any
binding behaviour. -/
theorem C9_empty_secret_missing_header (req : LoginReq) (env : Mt5Env) :
    API_KEY [("MT5_WORKER_API_KEY", "")] = "" ∧
    (handleRequest [("MT5_WORKER_API_KEY", "")] req none env).1.isReject
      = false := by
  refine ⟨rfl, ?_⟩
  rcases env with ⟨imp, init, lg, acc⟩
  rcases imp with e | u
  · simp [handleRequest, mt5_login, API_KEY, getenv, HandlerResult.isReject]
  · cases u
    cases init with
    | false =>
      simp [handleRequest, mt5_login, API_KEY, getenv, HandlerResult.isReject]
    | true =>
      rcases hp : pyStrToInt req.login with _ | n <;>
        cases lg <;> rcases acc with msg | info <;>
        simp [handleRequest, mt5_login, tryBlock, API_KEY, getenv, hp,
          HandlerResult.isReject]

/-- C10: every response body the handler produces contains the `ok`
field; when `ok` is true the body has an `account_info` mapping and no
`message`, and when `ok` is false the body has a `message` and no
`account_info`. -/
theorem C10_body_key_shape (secret h : String) (req : LoginReq) (env : Mt5Env)
    (b : Body) (hres : (mt5_login secret req h env).1 = .response b) :
    (b.ok = true → b.message = none ∧ b.account_info.isSome = true) ∧
    (b.ok = false → b.message.isSome = true ∧ b.account_info = none) := by
  by_cases hk : h ≠ secret
  · simp [mt5_login, hk] at hres
  · rcases env with ⟨imp, init, lg, acc⟩
    rcases imp with e | u
    · simp [mt5_login, hk] at hres
      simp [← hres]
    · cases u
      cases init with
      | false =>
        simp [mt5_login, hk] at hres
        simp [← hres]
      | true =>
        rcases hp : pyStrToInt req.login with _ | n <;>
          cases lg <;> rcases acc with msg | info <;>
          simp [mt5_login, tryBlock, hk, hp] at hres <;>
          simp [← hres]

/-- C10 witness: the success body at a concrete input has an
account_info mapping and no message. -/
theorem C10_body_key_shape_witness :
    (Body.mk true none
        (some [("balance", Val.i 1000), ("currency", Val.s "USD")])).message
      = none ∧
    (Body.mk true none
        (some [("balance", Val.i 1000),
          ("currency", Val.s "USD")])).account_info.isSome = true :=
  (C10_body_key_shape "k" "k" demoReq envOkSome
    (Body.mk true none
      (some [("balance", Val.i 1000), ("currency", Val.s "USD")]))
    (by decide)).1 rfl

end Mt5Worker
